import Mathlib

/-!
# Event platform backend: shallow embedding

A shallow embedding of the event-listing backend (`main.py`, `schemas.py`):
three collections (organization, admin, event) in a document store, the
mutators `verify_organization` and `approve_event`, event creation
`create_event`, and the listing pipeline `list_events`
(filter → sort → limit → bucket into open/upcoming/closed).

Timestamps: the code stores timezone-aware UTC datetimes and, in the
bucketing step of `list_events`, compares their canonical ISO-8601 UTC
string forms (produced by `serialize_doc` and `now.isoformat()`), which
order lexicographically exactly as the underlying instants order
chronologically; the pre-filter compares the datetimes themselves in the
store, which is the same order.  We therefore model a timestamp as a `Nat`
instant carrying that common order, so that both the store comparisons and
the ISO-string comparisons of the source are the comparisons on `Nat`.
-/

namespace EventPlatform

/-- Model of `schemas.Organization` (collection `organization`). -/
structure Organization where
  name : String
  email : String
  password_hash : String
  verified : Bool
  description : Option String
  website : Option String
deriving Repr, DecidableEq

/-- Model of `schemas.Admin` (collection `admin`). -/
structure Admin where
  email : String
  password_hash : String
  name : Option String
deriving Repr, DecidableEq

/-- Model of `schemas.Event` (collection `event`), plus the `created_at` stamp.
`created_at` is modelled from the spec: `database.create_document` (the
`database` module is not part of the sources) stamps each stored document
with its creation timestamp, which `list_events` uses for the
`sort == "recent"` mode ("descending by creation timestamp"). -/
structure Event where
  title : String
  description : String
  poster_url : Option String
  google_form_url : Option String
  venue : String
  event_start : Nat
  event_end : Option Nat
  registration_start : Nat
  registration_end : Nat
  category : String
  organization_id : String
  organization_name : Option String
  approved : Bool
  approved_by : Option String
  is_org_verified : Option Bool
  created_at : Nat
deriving Repr, DecidableEq

/-- The document store: each collection is an association list from the
string form of the generated `_id` to the document. -/
structure DB where
  organizations : List (String × Organization)
  admins : List (String × Admin)
  events : List (String × Event)
deriving Repr, DecidableEq

/-- Hex-digit test used by `isValidObjectId`.  `bson.objectid.ObjectId(s)`
accepts exactly the 24-character hex strings; anything else raises (bson is
an external library; this is its documented contract for string input). -/
def isHexChar (c : Char) : Bool :=
  c.isDigit || (('a' ≤ c && c ≤ 'f') || ('A' ≤ c && c ≤ 'F'))

/-- Whether a string is a well-formed store key (a parseable ObjectId). -/
def isValidObjectId (s : String) : Bool :=
  s.length == 24 && s.toList.all isHexChar

/-- Model of `fastapi.HTTPException(status_code, detail)`. -/
structure HttpError where
  status : Nat
  detail : String
deriving Repr, DecidableEq

/-- Model of `find_one` by id: the first document of the collection with the
given id, if any. -/
def findFirst {α : Type} : List (String × α) → String → Option α
  | [], _ => none
  | p :: rest, id => if p.1 = id then some p.2 else findFirst rest id

/-- Model of `update_one` by id with a field set: rewrite the first document
with the given id (at most one is matched), leave the rest alone. -/
def updateFirst {α : Type} : List (String × α) → String → (α → α) → List (String × α)
  | [], _, _ => []
  | p :: rest, id, f =>
    if p.1 = id then (p.1, f p.2) :: rest else p :: updateFirst rest id f

/-- The `{"success": True}` body returned by the two admin mutators. -/
structure SuccessResponse where
  success : Bool
deriving Repr, DecidableEq

/-- Endpoint `POST /admin/verify-organization` (`verify_organization` in `main.py`):
reject a malformed id with 400, update the organization's `verified` flag,
404 when no organization matched. -/
def verify_organization (db : DB) (org_id : String) (verified : Bool := true) :
    Except HttpError (DB × SuccessResponse) :=
  if isValidObjectId org_id then
    match findFirst db.organizations org_id with
    | none => .error ⟨404, "Organization not found"⟩
    | some _ =>
      .ok ({ db with
              organizations :=
                updateFirst db.organizations org_id fun o => { o with verified := verified } },
           ⟨true⟩)
  else .error ⟨400, "Invalid organization id"⟩

/-- Endpoint `POST /admin/approve-event` (`approve_event` in `main.py`): reject a
malformed id with 400, set `approved` to the request's flag and
`approved_by` to the literal string `"admin"`, 404 when no event matched. -/
def approve_event (db : DB) (event_id : String) (approve : Bool := true) :
    Except HttpError (DB × SuccessResponse) :=
  if isValidObjectId event_id then
    match findFirst db.events event_id with
    | none => .error ⟨404, "Event not found"⟩
    | some _ =>
      .ok ({ db with
              events :=
                updateFirst db.events event_id fun e =>
                  { e with approved := approve, approved_by := some "admin" } },
           ⟨true⟩)
  else .error ⟨400, "Invalid event id"⟩

/-- The body of `POST /events` (`EventCreateRequest` in `main.py`). -/
structure EventCreateRequest where
  title : String
  description : String
  poster_url : Option String
  google_form_url : Option String
  venue : String
  event_start : Nat
  event_end : Option Nat
  registration_start : Nat
  registration_end : Nat
  category : String
  organization_token : String
deriving Repr, DecidableEq

/-- The `{"id": ..., "approved": ...}` body returned by `create_event`. -/
structure CreateEventResponse where
  id : String
  approved : Bool
deriving Repr, DecidableEq

/-- Endpoint `POST /events` (`create_event` in `main.py`): resolve the organization
token (401 on malformed or unknown token), then insert the event with
`approved` and `is_org_verified` both set to the organization's current
`verified` flag and `approved_by` left null.  `new_id` is the store's
generated id, `now` the creation stamp added by `create_document`. -/
def create_event (db : DB) (payload : EventCreateRequest)
    (new_id : String) (now : Nat) :
    Except HttpError (DB × CreateEventResponse) :=
  if isValidObjectId payload.organization_token then
    match findFirst db.organizations payload.organization_token with
    | none => .error ⟨401, "Invalid organization token"⟩
    | some org =>
      let is_verified := org.verified
      let event : Event :=
        { title := payload.title
          description := payload.description
          poster_url := payload.poster_url
          google_form_url := payload.google_form_url
          venue := payload.venue
          event_start := payload.event_start
          event_end := payload.event_end
          registration_start := payload.registration_start
          registration_end := payload.registration_end
          category := payload.category
          organization_id := payload.organization_token
          organization_name := some org.name
          approved := is_verified
          approved_by := none
          is_org_verified := some is_verified
          created_at := now }
      .ok ({ db with events := db.events ++ [(new_id, event)] }, ⟨new_id, is_verified⟩)
  else .error ⟨401, "Invalid organization token"⟩

/-- Python truthiness of the optional `category` query parameter:
`if category:` is true exactly for a present, non-empty string. -/
def categoryTruthy : Option String → Bool
  | none => false
  | some c => decide (c ≠ "")

/-- The Mongo query `q` built by `list_events`: `approved == True`, the
category equality filter when the parameter is truthy, and the
registration-window pre-filter (`$lte`/`$gte`/`$gt`/`$lt` against `now`). -/
def matchesQuery (category : Option String) (registration_window : Option String)
    (now : Nat) (e : Event) : Bool :=
  e.approved
    && (if categoryTruthy category then decide (e.category = category.getD "") else true)
    && (if registration_window = some "open" then
          decide (e.registration_start ≤ now) && decide (e.registration_end ≥ now)
        else if registration_window = some "upcoming" then
          decide (e.registration_start > now)
        else if registration_window = some "closed" then
          decide (e.registration_end < now)
        else true)

/-- Model of the event-collection `find(q)`: the events matching the query, in the store's
natural order. -/
def filteredDocs (db : DB) (category : Option String)
    (registration_window : Option String) (now : Nat) :
    List (String × Event) :=
  db.events.filter fun p => matchesQuery category registration_window now p.2

/-- Order installed by `cursor.sort` on `registration_start`, `event_start`:
ascending by `registration_start`, ties broken ascending by `event_start`. -/
def timeOrder (a b : String × Event) : Prop :=
  a.2.registration_start < b.2.registration_start ∨
    (a.2.registration_start = b.2.registration_start ∧ a.2.event_start ≤ b.2.event_start)

instance : DecidableRel timeOrder := fun a b => by
  unfold timeOrder; infer_instance

instance : IsTotal (String × Event) timeOrder := ⟨by
  intro a b
  rcases Nat.lt_trichotomy a.2.registration_start b.2.registration_start with h | h | h
  · exact Or.inl (Or.inl h)
  · rcases Nat.le_total a.2.event_start b.2.event_start with h2 | h2
    · exact Or.inl (Or.inr ⟨h, h2⟩)
    · exact Or.inr (Or.inr ⟨h.symm, h2⟩)
  · exact Or.inr (Or.inl h)⟩

instance : IsTrans (String × Event) timeOrder := ⟨by
  intro a b c hab hbc
  rcases hab with h1 | ⟨e1, f1⟩ <;> rcases hbc with h2 | ⟨e2, f2⟩
  · exact Or.inl (Nat.lt_trans h1 h2)
  · exact Or.inl (Nat.lt_of_lt_of_le h1 (Nat.le_of_eq e2))
  · exact Or.inl (Nat.lt_of_le_of_lt (Nat.le_of_eq e1) h2)
  · exact Or.inr ⟨e1.trans e2, Nat.le_trans f1 f2⟩⟩

/-- Order installed by `cursor.sort` on `created_at` descending: newest
creation timestamp first. -/
def recentOrder (a b : String × Event) : Prop :=
  b.2.created_at ≤ a.2.created_at

instance : DecidableRel recentOrder := fun a b => by
  unfold recentOrder; infer_instance

instance : IsTotal (String × Event) recentOrder :=
  ⟨fun a b => Nat.le_total b.2.created_at a.2.created_at⟩

instance : IsTrans (String × Event) recentOrder :=
  ⟨fun _ _ _ h1 h2 => Nat.le_trans h2 h1⟩

/-- The sorting step of `list_events`: `"time"` and `"recent"` install the
corresponding order; any other value leaves the cursor's natural order. -/
def sortDocs (sort : Option String) (l : List (String × Event)) :
    List (String × Event) :=
  if sort = some "time" then List.insertionSort timeOrder l
  else if sort = some "recent" then List.insertionSort recentOrder l
  else l

/-- The clamp `min(max(limit, 1), 500)` applied in `cursor.limit(...)`. -/
def clampLimit (limit : Int) : Nat :=
  (min (max limit 1) 500).toNat

/-- The `docs` list of `list_events`: the pre-filtered, sorted, limit-capped
candidate set.  (`serialize_doc` only renames `_id` to `id` and renders the
datetimes as their ISO strings, which is the identity on this model.) -/
def candidateDocs (db : DB) (now : Nat) (category : Option String)
    (sort : Option String) (registration_window : Option String) (limit : Int) :
    List (String × Event) :=
  (sortDocs sort (filteredDocs db category registration_window now)).take
    (clampLimit limit)

/-- The body returned by `GET /events`. -/
structure ListEventsResponse where
  open_events : List (String × Event)
  upcoming_events : List (String × Event)
  closed_events : List (String × Event)
  count : Nat
deriving Repr, DecidableEq

/-- Endpoint `GET /events` (`list_events` in `main.py`): filter, sort, limit, then
bucket the capped candidate set by re-evaluating the three window
predicates independently against the same `now`. -/
def list_events (db : DB) (now : Nat) (category : Option String := none)
    (sort : Option String := some "time")
    (registration_window : Option String := none) (limit : Int := 100) :
    ListEventsResponse :=
  let docs := candidateDocs db now category sort registration_window limit
  { open_events := docs.filter fun p =>
      decide (p.2.registration_start ≤ now) && decide (now ≤ p.2.registration_end)
    upcoming_events := docs.filter fun p => decide (p.2.registration_start > now)
    closed_events := docs.filter fun p => decide (p.2.registration_end < now)
    count := docs.length }

/-! ## Concrete sample data -/

/-- A well-formed store key for an event. -/
def eid1 : String := "aaaaaaaaaaaaaaaaaaaaaaaa"

/-- A well-formed store key matching no record of `sampleDB`. -/
def eid2 : String := "bbbbbbbbbbbbbbbbbbbbbbbb"

/-- A well-formed store key for an organization. -/
def oid1 : String := "cccccccccccccccccccccccc"

/-- A well-formed store key for an admin. -/
def aid1 : String := "dddddddddddddddddddddddd"

/-- An approved event whose registration window is the interval [10, 30]. -/
def sampleEvent : Event :=
  { title := "t", description := "d", poster_url := none, google_form_url := none
    venue := "v", event_start := 20, event_end := none
    registration_start := 10, registration_end := 30, category := "tech"
    organization_id := oid1, organization_name := some "orgA", approved := true
    approved_by := none, is_org_verified := some false, created_at := 5 }

/-- An approved event whose `registration_end` (5) precedes its
`registration_start` (40): at any instant strictly between them it is
simultaneously upcoming and closed. -/
def invertedEvent : Event :=
  { sampleEvent with registration_start := 40, registration_end := 5
                     event_start := 50, created_at := 7 }

/-- An unverified organization. -/
def sampleOrg : Organization :=
  { name := "orgA", email := "a@example.com", password_hash := "h"
    verified := false, description := none, website := none }

/-- An admin whose store key is `aid1`. -/
def sampleAdmin : Admin :=
  { email := "admin@example.com", password_hash := "h", name := none }

/-- A store with one organization, one admin and one approved event. -/
def sampleDB : DB := ⟨[(oid1, sampleOrg)], [(aid1, sampleAdmin)], [(eid1, sampleEvent)]⟩

/-- A store whose only event has an inverted registration window. -/
def multiDB : DB := ⟨[], [], [(eid2, invertedEvent)]⟩

/-- A store with no documents at all. -/
def emptyDB : DB := ⟨[], [], []⟩

/-- A creation request for `sampleDB`'s organization. -/
def samplePayload : EventCreateRequest :=
  { title := "t", description := "d", poster_url := none, google_form_url := none
    venue := "v", event_start := 20, event_end := none, registration_start := 10
    registration_end := 30, category := "tech", organization_token := oid1 }

/-- The event `create_event sampleDB samplePayload eid2 7` inserts. -/
def createdEvent : Event :=
  { title := "t", description := "d", poster_url := none, google_form_url := none
    venue := "v", event_start := 20, event_end := none, registration_start := 10
    registration_end := 30, category := "tech", organization_id := oid1
    organization_name := some "orgA", approved := false, approved_by := none
    is_org_verified := some false, created_at := 7 }

/-- The store `sampleDB` after `create_event sampleDB samplePayload eid2 7`. -/
def createdDB : DB := { sampleDB with events := sampleDB.events ++ [(eid2, createdEvent)] }

/-- The store `sampleDB` after `approve_event sampleDB eid1 true`. -/
def approvedDB : DB :=
  { sampleDB with
      events := [(eid1, { sampleEvent with approved := true, approved_by := some "admin" })] }

/-- The store `sampleDB` after `verify_organization sampleDB oid1 true`. -/
def verifiedDB : DB :=
  { sampleDB with organizations := [(oid1, { sampleOrg with verified := true })] }

/-- Every `Event` field except the two the approval action sets
(`approved`, `approved_by`). -/
def eventFrame (e : Event) :=
  (e.title, e.description, e.poster_url, e.google_form_url, e.venue,
   e.event_start, e.event_end, e.registration_start, e.registration_end,
   e.category, e.organization_id, e.organization_name, e.is_org_verified,
   e.created_at)

/-- Every `Organization` field except the one the verification action sets
(`verified`). -/
def orgFrame (o : Organization) :=
  (o.name, o.email, o.password_hash, o.description, o.website)

/-! ## Helper lemmas -/

theorem findFirst_updateFirst {α : Type} (l : List (String × α)) (id : String)
    (f : α → α) :
    findFirst (updateFirst l id f) id = (findFirst l id).map f := by
  induction l with
  | nil => rfl
  | cons p rest ih =>
      by_cases h : p.1 = id
      · simp [findFirst, updateFirst, h]
      · simp [findFirst, updateFirst, h, ih]

theorem updateFirst_map_eq {α β : Type} (l : List (String × α)) (id : String)
    (f : α → α) (g : α → β) (hg : ∀ a, g (f a) = g a) :
    (updateFirst l id f).map (fun p => (p.1, g p.2))
      = l.map (fun p => (p.1, g p.2)) := by
  induction l with
  | nil => rfl
  | cons p rest ih =>
      by_cases h : p.1 = id
      · simp [updateFirst, h, hg]
      · simp [updateFirst, h, ih]

theorem sortDocs_length (sort : Option String) (l : List (String × Event)) :
    (sortDocs sort l).length = l.length := by
  unfold sortDocs
  split
  · exact List.length_insertionSort _ _
  · split
    · exact List.length_insertionSort _ _
    · rfl

theorem candidateDocs_length (db : DB) (now : Nat)
    (category sort registration_window : Option String) (limit : Int) :
    (candidateDocs db now category sort registration_window limit).length
      = min (clampLimit limit)
          (filteredDocs db category registration_window now).length := by
  unfold candidateDocs
  rw [List.length_take, sortDocs_length]

theorem approve_event_ok {db : DB} {eid : String} {b : Bool} {db' : DB}
    {r : SuccessResponse} (h : approve_event db eid b = .ok (db', r)) :
    isValidObjectId eid = true ∧ (∃ e, findFirst db.events eid = some e) ∧
    db' = { db with
             events := updateFirst db.events eid fun e =>
               { e with approved := b, approved_by := some "admin" } } ∧
    r = ⟨true⟩ := by
  unfold approve_event at h
  by_cases hv : isValidObjectId eid = true
  · rw [if_pos hv] at h
    cases hf : findFirst db.events eid with
    | none => rw [hf] at h; exact absurd h (by simp)
    | some e =>
        rw [hf] at h
        injection h with h1
        exact ⟨hv, ⟨e, rfl⟩, (Prod.mk.injEq _ _ _ _ ▸ h1).1.symm,
               (Prod.mk.injEq _ _ _ _ ▸ h1).2.symm⟩
  · rw [if_neg hv] at h
    exact absurd h (by simp)

theorem verify_organization_ok {db : DB} {oid : String} {v : Bool} {db' : DB}
    {r : SuccessResponse} (h : verify_organization db oid v = .ok (db', r)) :
    isValidObjectId oid = true ∧ (∃ o, findFirst db.organizations oid = some o) ∧
    db' = { db with
             organizations := updateFirst db.organizations oid fun o =>
               { o with verified := v } } ∧
    r = ⟨true⟩ := by
  unfold verify_organization at h
  by_cases hv : isValidObjectId oid = true
  · rw [if_pos hv] at h
    cases hf : findFirst db.organizations oid with
    | none => rw [hf] at h; exact absurd h (by simp)
    | some o =>
        rw [hf] at h
        injection h with h1
        exact ⟨hv, ⟨o, rfl⟩, (Prod.mk.injEq _ _ _ _ ▸ h1).1.symm,
               (Prod.mk.injEq _ _ _ _ ▸ h1).2.symm⟩
  · rw [if_neg hv] at h
    exact absurd h (by simp)

theorem create_event_ok {db : DB} {payload : EventCreateRequest} {nid : String}
    {now : Nat} {db' : DB} {resp : CreateEventResponse}
    (h : create_event db payload nid now = .ok (db', resp)) :
    ∃ org, isValidObjectId payload.organization_token = true ∧
      findFirst db.organizations payload.organization_token = some org ∧
      db' = { db with
               events := db.events ++
                 [(nid,
                   { title := payload.title
                     description := payload.description
                     poster_url := payload.poster_url
                     google_form_url := payload.google_form_url
                     venue := payload.venue
                     event_start := payload.event_start
                     event_end := payload.event_end
                     registration_start := payload.registration_start
                     registration_end := payload.registration_end
                     category := payload.category
                     organization_id := payload.organization_token
                     organization_name := some org.name
                     approved := org.verified
                     approved_by := none
                     is_org_verified := some org.verified
                     created_at := now })] } ∧
      resp = ⟨nid, org.verified⟩ := by
  unfold create_event at h
  by_cases hv : isValidObjectId payload.organization_token = true
  · rw [if_pos hv] at h
    cases hf : findFirst db.organizations payload.organization_token with
    | none => rw [hf] at h; exact absurd h (by simp)
    | some org =>
        rw [hf] at h
        injection h with h1
        exact ⟨org, hv, rfl, (Prod.mk.injEq _ _ _ _ ▸ h1).1.symm,
               (Prod.mk.injEq _ _ _ _ ▸ h1).2.symm⟩
  · rw [if_neg hv] at h
    exact absurd h (by simp)

/-! ## Claim theorems -/

/-- C1: every event of the limited, sorted candidate set of the listing
operation lands in the "open" bucket iff `registration_start ≤ now ≤
registration_end`, in "upcoming" iff `registration_start > now`, and in
"closed" iff `registration_end < now`, the three predicates evaluated
independently against the same instant `now`. -/
theorem bucket_membership (db : DB) (now : Nat)
    (category sort registration_window : Option String) (limit : Int)
    (p : String × Event)
    (hp : p ∈ candidateDocs db now category sort registration_window limit) :
    (p ∈ (list_events db now category sort registration_window limit).open_events ↔
        (p.2.registration_start ≤ now ∧ now ≤ p.2.registration_end)) ∧
    (p ∈ (list_events db now category sort registration_window limit).upcoming_events ↔
        p.2.registration_start > now) ∧
    (p ∈ (list_events db now category sort registration_window limit).closed_events ↔
        p.2.registration_end < now) := by
  simp [list_events, List.mem_filter, hp]

/-- Witness for C1 at a concrete store: the sample event's window [10, 30]
contains 20, so it is in "open" and in neither other bucket. -/
theorem bucket_membership_witness :
    ((eid1, sampleEvent) ∈
        (list_events sampleDB 20 none (some "time") none 100).open_events ↔
      (sampleEvent.registration_start ≤ 20 ∧ 20 ≤ sampleEvent.registration_end)) ∧
    ((eid1, sampleEvent) ∈
        (list_events sampleDB 20 none (some "time") none 100).upcoming_events ↔
      sampleEvent.registration_start > 20) ∧
    ((eid1, sampleEvent) ∈
        (list_events sampleDB 20 none (some "time") none 100).closed_events ↔
      sampleEvent.registration_end < 20) :=
  bucket_membership sampleDB 20 none (some "time") none 100 (eid1, sampleEvent)
    (by decide)

/-- C2: every event of the candidate set lands in at least one bucket,
and the buckets are not mutually exclusive: the store `multiDB`, whose only
event has `registration_end = 5 < now = 20 < registration_start = 40`,
returns that single event (`count = 1`) in both "upcoming" and "closed". -/
theorem bucket_cover_and_overlap (db : DB) (now : Nat)
    (category sort registration_window : Option String) (limit : Int)
    (p : String × Event)
    (hp : p ∈ candidateDocs db now category sort registration_window limit) :
    (p ∈ (list_events db now category sort registration_window limit).open_events ∨
     p ∈ (list_events db now category sort registration_window limit).upcoming_events ∨
     p ∈ (list_events db now category sort registration_window limit).closed_events) ∧
    ((list_events multiDB 20 none (some "time") none 100).count = 1 ∧
     (list_events multiDB 20 none (some "time") none 100).upcoming_events
        = [(eid2, invertedEvent)] ∧
     (list_events multiDB 20 none (some "time") none 100).closed_events
        = [(eid2, invertedEvent)]) := by
  constructor
  · by_cases h1 : now < p.2.registration_start
    · exact Or.inr (Or.inl (by simp [list_events, List.mem_filter, hp, h1]))
    · by_cases h2 : p.2.registration_end < now
      · exact Or.inr (Or.inr (by simp [list_events, List.mem_filter, hp, h2]))
      · refine Or.inl ?_
        have h3 : p.2.registration_start ≤ now ∧ now ≤ p.2.registration_end := by omega
        simp [list_events, List.mem_filter, hp, h3.1, h3.2]
  · exact ⟨by decide, by decide, by decide⟩

/-- Witness for C2: the inverted-window event is in at least one bucket of
its own listing (in fact in two). -/
theorem bucket_cover_and_overlap_witness :
    ((eid2, invertedEvent) ∈
        (list_events multiDB 20 none (some "time") none 100).open_events ∨
     (eid2, invertedEvent) ∈
        (list_events multiDB 20 none (some "time") none 100).upcoming_events ∨
     (eid2, invertedEvent) ∈
        (list_events multiDB 20 none (some "time") none 100).closed_events) ∧
    ((list_events multiDB 20 none (some "time") none 100).count = 1 ∧
     (list_events multiDB 20 none (some "time") none 100).upcoming_events
        = [(eid2, invertedEvent)] ∧
     (list_events multiDB 20 none (some "time") none 100).closed_events
        = [(eid2, invertedEvent)]) :=
  bucket_cover_and_overlap multiDB 20 none (some "time") none 100
    (eid2, invertedEvent) (by decide)

/-- C3: the returned `count` is the length of the pre-filtered, sorted,
limit-capped candidate set, independent of the bucket sizes; at `multiDB`
the bucket sizes sum to 2 while `count = 1`. -/
theorem count_eq_candidates (db : DB) (now : Nat)
    (category sort registration_window : Option String) (limit : Int) :
    (list_events db now category sort registration_window limit).count
      = (candidateDocs db now category sort registration_window limit).length ∧
    (list_events multiDB 20 none (some "time") none 100).count <
      (list_events multiDB 20 none (some "time") none 100).open_events.length +
      (list_events multiDB 20 none (some "time") none 100).upcoming_events.length +
      (list_events multiDB 20 none (some "time") none 100).closed_events.length :=
  ⟨rfl, by decide⟩

/-- C4 counterexample: the claim says `limit = 0` yields exactly one
candidate; on an empty store the capped candidate set is empty, so the
count is 0, not 1. -/
theorem limit_zero_empty_counterexample :
    ¬ (list_events emptyDB 20 none (some "time") none 0).count = 1 := by decide

/-- C4 amended: the requested limit is clamped into [1, 500] before
being applied to the sorted candidate set: the candidate count is the
clamped limit capped by the number of filtered events, `limit = 10000`
yields at most 500 candidates, and `limit ≤ 0` yields at most one
candidate — exactly one whenever any approved event matches the filters. -/
theorem limit_clamping (db : DB) (now : Nat)
    (category sort registration_window : Option String) (limit : Int) :
    1 ≤ clampLimit limit ∧ clampLimit limit ≤ 500 ∧
    (candidateDocs db now category sort registration_window limit).length
      = min (clampLimit limit)
          (filteredDocs db category registration_window now).length ∧
    (list_events db now category sort registration_window 10000).count ≤ 500 ∧
    (limit ≤ 0 →
      (list_events db now category sort registration_window limit).count ≤ 1 ∧
      (filteredDocs db category registration_window now ≠ [] →
        (list_events db now category sort registration_window limit).count = 1)) := by
  have hb : 1 ≤ clampLimit limit ∧ clampLimit limit ≤ 500 := by
    unfold clampLimit; omega
  have hlen : ∀ l : Int,
      (candidateDocs db now category sort registration_window l).length
        = min (clampLimit l)
            (filteredDocs db category registration_window now).length := by
    intro l; exact candidateDocs_length db now category sort registration_window l
  refine ⟨hb.1, hb.2, hlen limit, ?_, ?_⟩
  · show (candidateDocs db now category sort registration_window 10000).length ≤ 500
    rw [hlen 10000]
    have : clampLimit 10000 = 500 := by unfold clampLimit; rfl
    omega
  · intro hneg
    have h1 : clampLimit limit = 1 := by unfold clampLimit; omega
    constructor
    · show (candidateDocs db now category sort registration_window limit).length ≤ 1
      rw [hlen limit, h1]; omega
    · intro hne
      have hpos : 0 < (filteredDocs db category registration_window now).length :=
        List.length_pos.mpr hne
      show (candidateDocs db now category sort registration_window limit).length = 1
      rw [hlen limit, h1]; omega

/-- Witness for C4 at a concrete store with one approved event: `limit = -5`
is clamped to 1 and returns exactly one candidate, `limit = 10000` returns
at most 500. -/
theorem limit_clamping_witness :
    1 ≤ clampLimit (-5) ∧ clampLimit (-5) ≤ 500 ∧
    (candidateDocs sampleDB 20 none (some "time") none (-5)).length
      = min (clampLimit (-5)) (filteredDocs sampleDB none none 20).length ∧
    (list_events sampleDB 20 none (some "time") none 10000).count ≤ 500 ∧
    ((list_events sampleDB 20 none (some "time") none (-5)).count ≤ 1 ∧
      (list_events sampleDB 20 none (some "time") none (-5)).count = 1) := by
  have h := limit_clamping sampleDB 20 none (some "time") none (-5)
  have h5 := h.2.2.2.2 (by decide)
  exact ⟨h.1, h.2.1, h.2.2.1, h.2.2.2.1, h5.1, h5.2 (by decide)⟩

/-- C5 counterexample: after the approval action the event's
`approved_by` is the literal string `"admin"`, which is not the identifier
of any admin in the store (the only admin's id is `aid1`); the request does
not even carry an admin identity. -/
theorem approved_by_literal_counterexample :
    (approve_event sampleDB eid1 true).toOption.map
        (fun r => (findFirst r.1.events eid1).map Event.approved_by)
      = some (some (some "admin")) ∧
    sampleDB.admins.all (fun q => decide (q.1 ≠ "admin")) = true :=
  ⟨rfl, by decide⟩

/-- C5 amended: the field `approved_by` is set by the approval action to the
constant string `"admin"` (no admin identifier is recorded); in every other
case — in particular at creation, even when the event is auto-approved
because its organization is verified — `approved_by` is null. -/
theorem approved_by_lifecycle :
    (∀ (db : DB) (eid : String) (b : Bool) (db' : DB) (r : SuccessResponse),
        approve_event db eid b = .ok (db', r) →
        (findFirst db'.events eid).map Event.approved_by = some (some "admin")) ∧
    (∀ (db : DB) (payload : EventCreateRequest) (nid : String) (now : Nat)
        (db' : DB) (resp : CreateEventResponse),
        create_event db payload nid now = .ok (db', resp) →
        ∃ e : Event, db'.events = db.events ++ [(nid, e)] ∧
          e.approved_by = none) := by
  constructor
  · intro db eid b db' r h
    obtain ⟨-, ⟨e, hf⟩, hdb, -⟩ := approve_event_ok h
    subst hdb
    simp [findFirst_updateFirst, hf]
  · intro db payload nid now db' resp h
    obtain ⟨org, -, -, hdb, -⟩ := create_event_ok h
    subst hdb
    exact ⟨_, rfl, rfl⟩

/-- Witness for C5: approving the sample event records `"admin"`, and the
creation of `createdEvent` leaves `approved_by` null. -/
theorem approved_by_lifecycle_witness :
    (findFirst approvedDB.events eid1).map Event.approved_by
        = some (some "admin") ∧
    (∃ e : Event, createdDB.events = sampleDB.events ++ [(eid2, e)] ∧
        e.approved_by = none) :=
  ⟨approved_by_lifecycle.1 sampleDB eid1 true approvedDB ⟨true⟩ rfl,
   approved_by_lifecycle.2 sampleDB samplePayload eid2 7 createdDB ⟨eid2, false⟩ rfl⟩

/-- C6: frame conditions of the two mutators: a successful
`approve_event` changes nothing outside the matched event's `approved` and
`approved_by` fields (in particular `is_org_verified` and the other two
collections are untouched), and a successful `verify_organization` changes
nothing outside the matched organization's `verified` field (in particular
it changes no event's `approved` or `is_org_verified`). -/
theorem mutator_frame :
    (∀ (db : DB) (eid : String) (b : Bool) (db' : DB) (r : SuccessResponse),
        approve_event db eid b = .ok (db', r) →
        db'.organizations = db.organizations ∧ db'.admins = db.admins ∧
        db'.events.map (fun p => (p.1, eventFrame p.2))
          = db.events.map (fun p => (p.1, eventFrame p.2))) ∧
    (∀ (db : DB) (oid : String) (v : Bool) (db' : DB) (r : SuccessResponse),
        verify_organization db oid v = .ok (db', r) →
        db'.events = db.events ∧ db'.admins = db.admins ∧
        db'.organizations.map (fun p => (p.1, orgFrame p.2))
          = db.organizations.map (fun p => (p.1, orgFrame p.2))) := by
  constructor
  · intro db eid b db' r h
    obtain ⟨-, -, hdb, -⟩ := approve_event_ok h
    subst hdb
    exact ⟨rfl, rfl, updateFirst_map_eq _ _ _ _ fun e => rfl⟩
  · intro db oid v db' r h
    obtain ⟨-, -, hdb, -⟩ := verify_organization_ok h
    subst hdb
    exact ⟨rfl, rfl, updateFirst_map_eq _ _ _ _ fun o => rfl⟩

/-- Witness for C6 at the concrete store: approving `eid1` and verifying
`oid1` each leave everything but their named target fields unchanged. -/
theorem mutator_frame_witness :
    (approvedDB.organizations = sampleDB.organizations ∧
     approvedDB.admins = sampleDB.admins ∧
     approvedDB.events.map (fun p => (p.1, eventFrame p.2))
        = sampleDB.events.map (fun p => (p.1, eventFrame p.2))) ∧
    (verifiedDB.events = sampleDB.events ∧
     verifiedDB.admins = sampleDB.admins ∧
     verifiedDB.organizations.map (fun p => (p.1, orgFrame p.2))
        = sampleDB.organizations.map (fun p => (p.1, orgFrame p.2))) :=
  ⟨mutator_frame.1 sampleDB eid1 true approvedDB ⟨true⟩ rfl,
   mutator_frame.2 sampleDB oid1 true verifiedDB ⟨true⟩ rfl⟩

/-- C7: for a creation request whose token resolves to an existing
organization, the created event's `approved` equals the organization's
`verified` flag at that instant, `is_org_verified` records the same
snapshot, and the response reports that `approved` value. -/
theorem create_event_approval_snapshot (db : DB) (payload : EventCreateRequest)
    (nid : String) (now : Nat) (org : Organization)
    (hv : isValidObjectId payload.organization_token = true)
    (hf : findFirst db.organizations payload.organization_token = some org) :
    ∃ e : Event,
      create_event db payload nid now
        = .ok ({ db with events := db.events ++ [(nid, e)] },
               ⟨nid, org.verified⟩) ∧
      e.approved = org.verified ∧ e.is_org_verified = some org.verified := by
  unfold create_event
  rw [if_pos hv, hf]
  exact ⟨_, rfl, rfl, rfl⟩

/-- Witness for C7: creating from `sampleDB`'s unverified organization
yields an event with `approved = false` and `is_org_verified = some false`,
reported as `approved = false`. -/
theorem create_event_approval_snapshot_witness :
    ∃ e : Event,
      create_event sampleDB samplePayload eid2 7
        = .ok ({ sampleDB with events := sampleDB.events ++ [(eid2, e)] },
               ⟨eid2, sampleOrg.verified⟩) ∧
      e.approved = sampleOrg.verified ∧
      e.is_org_verified = some sampleOrg.verified :=
  create_event_approval_snapshot sampleDB samplePayload eid2 7 sampleOrg
    (by decide) (by decide)

/-- C8: for both `verify_organization` and `approve_event`: a malformed
store key fails with 400 (InvalidId), a well-formed key matching no record
fails with 404 (NotFound) — two always-distinct outcomes — and otherwise
the call succeeds with `{success: true}`. -/
theorem id_error_distinction (db : DB) (id : String) (b : Bool) :
    (isValidObjectId id = false →
        verify_organization db id b = .error ⟨400, "Invalid organization id"⟩ ∧
        approve_event db id b = .error ⟨400, "Invalid event id"⟩) ∧
    (isValidObjectId id = true →
        (findFirst db.organizations id = none →
            verify_organization db id b
              = .error ⟨404, "Organization not found"⟩) ∧
        (findFirst db.events id = none →
            approve_event db id b = .error ⟨404, "Event not found"⟩) ∧
        (∀ o, findFirst db.organizations id = some o →
            ∃ db', verify_organization db id b = .ok (db', ⟨true⟩)) ∧
        (∀ e, findFirst db.events id = some e →
            ∃ db', approve_event db id b = .ok (db', ⟨true⟩))) := by
  constructor
  · intro hv
    constructor
    · unfold verify_organization
      rw [if_neg (by simp [hv])]
    · unfold approve_event
      rw [if_neg (by simp [hv])]
  · intro hv
    refine ⟨?_, ?_, ?_, ?_⟩
    · intro hf
      unfold verify_organization
      rw [if_pos hv, hf]
    · intro hf
      unfold approve_event
      rw [if_pos hv, hf]
    · intro o hf
      unfold verify_organization
      rw [if_pos hv, hf]
      exact ⟨_, rfl⟩
    · intro e hf
      unfold approve_event
      rw [if_pos hv, hf]
      exact ⟨_, rfl⟩

/-- Witness for C8: at the concrete store, `"not-a-valid-id"` is rejected
with 400 by both mutators, the well-formed-but-absent key `eid2` with 404,
and the present keys `oid1`/`eid1` succeed. -/
theorem id_error_distinction_witness :
    (verify_organization sampleDB "not-a-valid-id" true
        = .error ⟨400, "Invalid organization id"⟩ ∧
      approve_event sampleDB "not-a-valid-id" true
        = .error ⟨400, "Invalid event id"⟩) ∧
    verify_organization sampleDB eid2 true
        = .error ⟨404, "Organization not found"⟩ ∧
    approve_event sampleDB eid2 true = .error ⟨404, "Event not found"⟩ ∧
    (∃ db', verify_organization sampleDB oid1 true = .ok (db', ⟨true⟩)) ∧
    (∃ db', approve_event sampleDB eid1 true = .ok (db', ⟨true⟩)) := by
  have h1 := id_error_distinction sampleDB "not-a-valid-id" true
  have h2 := id_error_distinction sampleDB eid2 true
  have h3 := id_error_distinction sampleDB oid1 true
  have h4 := id_error_distinction sampleDB eid1 true
  exact ⟨h1.1 (by decide),
         (h2.2 (by decide)).1 (by decide),
         (h2.2 (by decide)).2.1 (by decide),
         (h3.2 (by decide)).2.2.1 sampleOrg (by decide),
         (h4.2 (by decide)).2.2.2 sampleEvent (by decide)⟩

/-- C9: sorting of the candidate set: `sortMode = "time"` (the
signature default) yields a set ordered ascending by `registration_start`
with ties broken ascending by `event_start`; `sortMode = "recent"` yields
descending order by creation timestamp; both are permutations of the
filtered set; any other mode passes the store's natural (filtered) order
through unchanged. -/
theorem sort_modes (db : DB) (now : Nat)
    (category registration_window : Option String) (limit : Int)
    (s : Option String) :
    List.Sorted timeOrder
      (candidateDocs db now category (some "time") registration_window limit) ∧
    (sortDocs (some "time") (filteredDocs db category registration_window now)).Perm
      (filteredDocs db category registration_window now) ∧
    List.Sorted recentOrder
      (candidateDocs db now category (some "recent") registration_window limit) ∧
    (sortDocs (some "recent") (filteredDocs db category registration_window now)).Perm
      (filteredDocs db category registration_window now) ∧
    (s ≠ some "time" → s ≠ some "recent" →
      candidateDocs db now category s registration_window limit
        = (filteredDocs db category registration_window now).take
            (clampLimit limit)) := by
  have htime : sortDocs (some "time")
      (filteredDocs db category registration_window now)
      = List.insertionSort timeOrder
          (filteredDocs db category registration_window now) := by
    unfold sortDocs; rw [if_pos rfl]
  have hrecent : sortDocs (some "recent")
      (filteredDocs db category registration_window now)
      = List.insertionSort recentOrder
          (filteredDocs db category registration_window now) := by
    unfold sortDocs
    rw [if_neg (by decide), if_pos rfl]
  refine ⟨?_, ?_, ?_, ?_, ?_⟩
  · unfold candidateDocs
    rw [htime]
    exact List.Pairwise.sublist (List.take_sublist _ _)
      (List.sorted_insertionSort _ _)
  · rw [htime]; exact List.perm_insertionSort _ _
  · unfold candidateDocs
    rw [hrecent]
    exact List.Pairwise.sublist (List.take_sublist _ _)
      (List.sorted_insertionSort _ _)
  · rw [hrecent]; exact List.perm_insertionSort _ _
  · intro hs1 hs2
    unfold candidateDocs sortDocs
    rw [if_neg hs1, if_neg hs2]

/-- Witness for C9 at the concrete store, with the unrecognized mode
`"natural"` exercising the pass-through branch. -/
theorem sort_modes_witness :
    List.Sorted timeOrder (candidateDocs sampleDB 20 none (some "time") none 100) ∧
    (sortDocs (some "time") (filteredDocs sampleDB none none 20)).Perm
      (filteredDocs sampleDB none none 20) ∧
    List.Sorted recentOrder
      (candidateDocs sampleDB 20 none (some "recent") none 100) ∧
    (sortDocs (some "recent") (filteredDocs sampleDB none none 20)).Perm
      (filteredDocs sampleDB none none 20) ∧
    candidateDocs sampleDB 20 none (some "natural") none 100
      = (filteredDocs sampleDB none none 20).take (clampLimit 100) := by
  have h := sort_modes sampleDB 20 none none 100 (some "natural")
  exact ⟨h.1, h.2.1, h.2.2.1, h.2.2.2.1, h.2.2.2.2 (by decide) (by decide)⟩

/-- C10: passing `category=""` is the same listing as omitting the
category parameter: Python's `if category:` treats the empty string as
"no category filter". -/
theorem empty_category_no_filter (db : DB) (now : Nat)
    (sort registration_window : Option String) (limit : Int) :
    list_events db now (some "") sort registration_window limit
      = list_events db now none sort registration_window limit := by
  have hf : filteredDocs db (some "") registration_window now
      = filteredDocs db none registration_window now := by
    unfold filteredDocs
    exact List.filter_congr fun p _ => by
      simp [matchesQuery, categoryTruthy]
  simp [list_events, candidateDocs, hf]

end EventPlatform
